import Mathlib

/-!
Shallow embedding of the lending-workflow backend's core:
the KYC readiness engine (`src/services/kycService.js`), the loan
lifecycle engine (`src/services/loanService.js`), and the admin
user-status operation (`src/services/adminUserService.js` together with
`src/controllers/adminUserController.js`).

Conventions of the embedding:
* Database tables are lists of row structures inside a `DB` record;
  `prisma.<table>.update where id` is a map replacing the matching row,
  `findUnique` is `List.find?`, `create` appends.
* Every operation takes the pre-state `DB` and returns
  `Except LoanErr α × DB`: the post-state is returned on every path, so
  "the operation leaves the store unchanged" is the equation
  `post = pre`.  A thrown JS error is `Except.error`; a `$transaction`
  either applies all of its writes in one step or leaves the state as it
  was (rollback).
* External collaborators (Cloudinary existence checks, the ajv schema
  validator, environment configuration) are fields of an `ExtEnv` record
  passed in; fallible best-effort writes (audit rows, notification rows)
  take a `Bool` flag telling whether the underlying store write succeeds,
  which models the only observable behaviours of those awaited calls.
* JS timestamps, password hashes and e-mail token fields are dropped:
  no claim observes them.  The two client field aliases
  (`public_id`/`publicId` etc.) are kept as separate optional fields with
  the source's `||` fallback, including JS falsiness of `""`.
-/

deriving instance DecidableEq for Except

/-- KYC document types (enumerated in `kycService.js`). -/
inductive DocType
  | ID_PROOF
  | ADDRESS_PROOF
  | PAN_CARD
  | BANK_STATEMENT
deriving DecidableEq, Repr

/-- KYC document statuses: UPLOADING → PENDING → VERIFIED | REJECTED. -/
inductive KYCStatus
  | UPLOADING
  | PENDING
  | VERIFIED
  | REJECTED
deriving DecidableEq, Repr

/-- User roles. -/
inductive Role
  | CUSTOMER
  | MERCHANT
  | BANKER
  | ADMIN
deriving DecidableEq, Repr

/-- Loan lifecycle statuses. -/
inductive LoanStatus
  | DRAFT
  | SUBMITTED
  | UNDER_REVIEW
  | APPROVED
  | REJECTED
  | DISBURSED
  | CANCELLED
deriving DecidableEq, Repr

/-- The loan's cached `kycStatus` column (PENDING | VERIFIED). -/
inductive KycCache
  | PENDING
  | VERIFIED
deriving DecidableEq, Repr

/-- Error taxonomy of the services: each constructor corresponds to one
family of thrown errors (`notFound` = 404, `invalidState` = the 400
status-precondition errors, `forbidden` = 403, `badRequest` = other 400
validation errors, `conflict` = 409, `kycIncomplete` = the distinguished
`KYC_INCOMPLETE` error carrying its `details` payload,
`docVerificationFailed` = the invalid-documents 400 carrying the offending
document names, `internalError` = an exception propagated from the
store). -/
inductive LoanErr
  | notFound
  | invalidState
  | forbidden
  | badRequest
  | conflict
  | kycIncomplete (missingTypes : List DocType) (percentComplete : Nat)
  | docVerificationFailed (files : List String)
  | internalError
deriving DecidableEq, Repr

/-- `a || b` on JS strings-or-undefined: `undefined` and `""` are falsy. -/
def jsOrS (a b : Option String) : Option String :=
  match a with
  | some s => if s = "" then b else some s
  | none => b

/-- JS truthiness of a string-or-undefined value. -/
def jsTruthy (a : Option String) : Bool :=
  match a with
  | some s => s ≠ ""
  | none => false

/-- `s.startsWith(p)` character by character. -/
def strStartsWith (s p : String) : Bool :=
  p.data.isPrefixOf s.data

/-- `s.toLowerCase()` character by character. -/
def strToLower (s : String) : String :=
  ⟨s.data.map Char.toLower⟩

/-- `s.trim()`: strip whitespace from both ends. -/
def strTrim (s : String) : String :=
  ⟨((s.data.dropWhile Char.isWhitespace).reverse.dropWhile
      Char.isWhitespace).reverse⟩

/-- `String(email).trim().toLowerCase()`. -/
def normalizedEmailOf (email : Option String) : String :=
  strToLower (strTrim (email.getD ""))

/-- A user row (with its 1:1 role profile flattened in: `hasMerchantProfile`
says the user owns a `MerchantProfile` row, and `merchantLink` is the
customer profile's `merchantId` link to the owning merchant, identifying
the 1:1 profile with its user). -/
structure UserRow where
  id : String
  role : Role
  email : String
  status : String
  hasMerchantProfile : Bool := false
  merchantLink : Option String := none
deriving DecidableEq, Repr

/-- A loan type row: `schema` is an opaque handle compiled by ajv,
`requiredDocuments` the required document-type tags. -/
structure LoanTypeRow where
  id : Nat
  name : String
  code : Option String
  schema : Option Nat
  requiredDocuments : List String
deriving DecidableEq, Repr

/-- The disbursement record merged into the loan's metadata on
disbursement (the `disbursedAt` timestamp is dropped). -/
structure DisburseRec where
  referenceId : String
  notes : Option String
deriving DecidableEq, Repr

/-- Loan application metadata: an opaque field bag plus the disbursement
record `disburseLoan` adds. -/
structure Metadata where
  fields : List (String × String)
  disbursement : Option DisburseRec := none
deriving DecidableEq, Repr

/-- A loan row. -/
structure LoanRow where
  id : Nat
  loanTypeId : Nat
  merchantId : String
  applicantId : String
  bankerId : Option String := none
  amount : Int
  tenorMonths : Nat
  metadata : Metadata
  status : LoanStatus
  kycStatus : KycCache
  interestRate : Option Int := none
deriving DecidableEq, Repr

/-- A loan `Document` row as created by `applyForLoan`'s transaction. -/
structure DocumentRow where
  loanId : Nat
  publicId : Option String
  secureUrl : Option String
  url : Option String
  filename : Option String
  fileType : Option String
  docTag : String
  bytes : Nat
  uploaderId : String
deriving DecidableEq, Repr

/-- A `KYCDocument` row. -/
structure KYCDocRow where
  id : String
  userId : String
  docType : DocType
  status : KYCStatus
  url : Option String
  verifiedBy : Option String := none
deriving DecidableEq, Repr

/-- An `AuditLog` row (timestamps dropped). -/
structure AuditEntry where
  entityType : String
  entityId : Nat
  action : String
  actorId : String
  details : Option String := none
deriving DecidableEq, Repr

/-- A `KYCAuditLog` row. -/
structure KYCAuditEntry where
  kycDocId : String
  action : String
  actorId : Option String
  details : String
deriving DecidableEq, Repr

/-- A `Notification` row. -/
structure NotificationRow where
  userId : String
  ntype : String
  message : String
deriving DecidableEq, Repr

/-- The persistent store. -/
structure DB where
  users : List UserRow
  loanTypes : List LoanTypeRow
  loans : List LoanRow
  documents : List DocumentRow
  kycDocs : List KYCDocRow
  auditLogs : List AuditEntry
  kycAuditLogs : List KYCAuditEntry
  notifications : List NotificationRow
deriving DecidableEq, Repr

/-- External collaborators and environment configuration:
`resourceExists` is Cloudinary's `verifyResource` (a 404 maps to
`false`), `schemaValid` the ajv compile/validate of a loan type's schema
handle against metadata, the rest are the `CLOUDINARY_*` / `KYC_*`
environment settings. -/
structure ExtEnv where
  resourceExists : String → Bool
  schemaValid : Nat → Metadata → Bool
  cloudName : String
  kycFolder : String
  maxFileSize : Nat
  allowedTypes : List String

/-- `KYCService.getDocTypeName`. -/
def getDocTypeName (t : DocType) : String :=
  match t with
  | .ID_PROOF => "Government ID (Aadhaar/Passport)"
  | .ADDRESS_PROOF => "Address Proof (Utility Bill/Bank Statement)"
  | .PAN_CARD => "PAN Card"
  | .BANK_STATEMENT => "Bank Statement (Last 6 months)"

/-- The string tag of a document type, as stored in the DB enum columns and
used to build storage locators. -/
def docTypeStr (t : DocType) : String :=
  match t with
  | .ID_PROOF => "ID_PROOF"
  | .ADDRESS_PROOF => "ADDRESS_PROOF"
  | .PAN_CARD => "PAN_CARD"
  | .BANK_STATEMENT => "BANK_STATEMENT"

/-- `[...new Set([...xs, ...ys])]`: append keeping first occurrences. -/
def addUnique (acc : List DocType) (t : DocType) : List DocType :=
  if t ∈ acc then acc else acc ++ [t]

/-- `KYCService.getRequiredDocuments` (the returned display objects are
projected to their `type` fields, which is all `isKYCComplete` reads). -/
def getRequiredDocuments (userRole : Role) (loanType : Option String) : List DocType :=
  let base : List DocType :=
    match userRole with
    | .CUSTOMER => [.ID_PROOF, .ADDRESS_PROOF, .PAN_CARD]
    | .MERCHANT => [.ID_PROOF, .ADDRESS_PROOF, .PAN_CARD, .BANK_STATEMENT]
    | .BANKER => []
    | .ADMIN => []
  match loanType with
  | none => base
  | some hint =>
      let extra : List DocType :=
        if hint = "BUSINESS" then [.BANK_STATEMENT]
        else if hint = "VEHICLE" then [.ADDRESS_PROOF]
        else if hint = "EQUIPMENT" then [.BANK_STATEMENT]
        else []
      (base ++ extra).foldl addUnique []

/-- `KYCService.getUserKYCDocuments`: the user's document rows. -/
def getUserKYCDocuments (db : DB) (userId : String) : List KYCDocRow :=
  db.kycDocs.filter (fun d => d.userId = userId)

/-- Result record of `isKYCComplete`. -/
structure KYCReadiness where
  complete : Bool
  missingTypes : List DocType
  percentComplete : Nat
  requiredTypes : List DocType
  verifiedCount : Nat
deriving DecidableEq, Repr

/-- `Math.round` of `100 * v / r` for naturals `v ≤ r`, `r > 0`
(half rounds up, as JS `Math.round` does for non-negative values). -/
def round100 (v r : Nat) : Nat := (200 * v + r) / (2 * r)

/-- `KYCService.isKYCComplete`. -/
def isKYCComplete (db : DB) (userId : String) (userRole : Role)
    (loanType : Option String) : KYCReadiness :=
  let documents := getUserKYCDocuments db userId
  let requiredTypes := getRequiredDocuments userRole loanType
  let verifiedTypes :=
    (documents.filter (fun d => d.status = .VERIFIED)).map (fun d => d.docType)
  let missingTypes := requiredTypes.filter (fun t => t ∉ verifiedTypes)
  let percentComplete :=
    if requiredTypes.length > 0 then
      round100 (requiredTypes.length - missingTypes.length) requiredTypes.length
    else 0
  { complete := missingTypes.isEmpty && !requiredTypes.isEmpty
    missingTypes := missingTypes
    percentComplete := percentComplete
    requiredTypes := requiredTypes
    verifiedCount := requiredTypes.length - missingTypes.length }


/-- `prisma.loan.update where id`: replace the row with the matching id. -/
def updateLoanRows (loans : List LoanRow) (row : LoanRow) : List LoanRow :=
  loans.map (fun l => if l.id = row.id then row else l)

/-- Look a user up by id. -/
def findUser (db : DB) (userId : String) : Option UserRow :=
  db.users.find? (fun u => u.id = userId)

/-- The applicant's role as read through the loan's `applicant` join;
referential integrity guarantees the join succeeds, so the fallback
is unreachable on well-formed stores. -/
def applicantRole (db : DB) (userId : String) : Role :=
  match findUser db userId with
  | some u => u.role
  | none => Role.CUSTOMER

/-- `loan.loanType?.code || loan.loanType?.name || null`: the coarse
loan-category hint handed to the KYC readiness engine. -/
def loanTypeHintOf (db : DB) (loanTypeId : Nat) : Option String :=
  match db.loanTypes.find? (fun lt => lt.id = loanTypeId) with
  | none => none
  | some lt => jsOrS lt.code (jsOrS (some lt.name) none)

/-- `LoanService.assignBanker` (`auditOk` = whether the transaction's
audit-row insert succeeds; on failure the transaction rolls back). -/
def assignBanker (db : DB) (loanId : Nat) (bankerId : String)
    (assignedBy : String) (auditOk : Bool) : Except LoanErr LoanRow × DB :=
  match db.loans.find? (fun l => l.id = loanId) with
  | none => (.error .notFound, db)
  | some loan =>
    if loan.status ∉ [LoanStatus.SUBMITTED, LoanStatus.UNDER_REVIEW] then
      (.error .invalidState, db)
    else
      match findUser db bankerId with
      | none => (.error .notFound, db)
      | some banker =>
        if banker.role ≠ Role.BANKER then (.error .notFound, db)
        else if !auditOk then (.error .internalError, db)
        else
          let updated := { loan with bankerId := some bankerId,
                                     status := .UNDER_REVIEW }
          (.ok updated,
           { db with loans := updateLoanRows db.loans updated
                     auditLogs := db.auditLogs ++
                       [{ entityType := "LOAN", entityId := loanId,
                          action := "BANKER_ASSIGNED", actorId := assignedBy }] })

/-- The readiness query `approveLoan` issues: the applicant's documents,
the applicant's role (through the loan's join) and the loan-type hint. -/
def approveReadiness (db : DB) (loan : LoanRow) : KYCReadiness :=
  isKYCComplete db loan.applicantId (applicantRole db loan.applicantId)
    (loanTypeHintOf db loan.loanTypeId)

/-- `LoanService.approveLoan` (`auditOk` as in `assignBanker`; `notifyOk` =
whether the post-commit fire-and-forget notification inserts succeed —
their failure is caught and only logged). -/
def approveLoan (db : DB) (loanId : Nat) (bankerId : String)
    (notes : Option String) (interestRate : Option Int)
    (auditOk notifyOk : Bool) : Except LoanErr LoanRow × DB :=
  match db.loans.find? (fun l => l.id = loanId) with
  | none => (.error .notFound, db)
  | some loan =>
    if loan.status ≠ LoanStatus.UNDER_REVIEW then (.error .invalidState, db)
    else if loan.bankerId ≠ some bankerId then (.error .forbidden, db)
    else
      match interestRate with
      | none => (.error .badRequest, db)
      | some rate =>
        if rate ≤ 0 then (.error .badRequest, db)
        else
          let kyc := approveReadiness db loan
          if !kyc.complete then
            (.error (.kycIncomplete kyc.missingTypes kyc.percentComplete), db)
          else if !auditOk then (.error .internalError, db)
          else
            let updated := { loan with status := .APPROVED,
                                       kycStatus := .VERIFIED,
                                       interestRate := some rate }
            let committed :=
              { db with loans := updateLoanRows db.loans updated
                        auditLogs := db.auditLogs ++
                          [{ entityType := "LOAN", entityId := loanId,
                             action := "LOAN_APPROVED", actorId := bankerId,
                             details := some ("Rate: " ++ toString rate ++
                               "%, Notes: " ++ (jsOrS notes (some "")).getD "") }] }
            let after :=
              if notifyOk then
                { committed with notifications := committed.notifications ++
                    [{ userId := loan.applicantId, ntype := "LOAN_APPROVED",
                       message := "Your loan application has been approved." }] ++
                    (if loan.merchantId ≠ loan.applicantId then
                      [{ userId := loan.merchantId, ntype := "LOAN_APPROVED",
                         message := "Loan application has been approved." }]
                     else []) }
              else committed
            (.ok updated, after)

/-- `LoanService.rejectLoan`. -/
def rejectLoan (db : DB) (loanId : Nat) (bankerId : String)
    (notes : Option String) (auditOk notifyOk : Bool) :
    Except LoanErr LoanRow × DB :=
  match db.loans.find? (fun l => l.id = loanId) with
  | none => (.error .notFound, db)
  | some loan =>
    if loan.status ≠ LoanStatus.UNDER_REVIEW then (.error .invalidState, db)
    else if loan.bankerId ≠ some bankerId then (.error .forbidden, db)
    else if !(jsTruthy notes) then (.error .badRequest, db)
    else if !auditOk then (.error .internalError, db)
    else
      let updated := { loan with status := .REJECTED }
      let committed :=
        { db with loans := updateLoanRows db.loans updated
                  auditLogs := db.auditLogs ++
                    [{ entityType := "LOAN", entityId := loanId,
                       action := "LOAN_REJECTED", actorId := bankerId }] }
      let after :=
        if notifyOk then
          { committed with notifications := committed.notifications ++
              [{ userId := loan.applicantId, ntype := "LOAN_REJECTED",
                 message := "Your loan application has been rejected." }] ++
              (if loan.merchantId ≠ loan.applicantId then
                [{ userId := loan.merchantId, ntype := "LOAN_REJECTED",
                   message := "Loan application has been rejected." }]
               else []) }
        else committed
      (.ok updated, after)

/-- `LoanService.disburseLoan`. -/
def disburseLoan (db : DB) (loanId : Nat) (bankerId : String)
    (referenceId : Option String) (notes : Option String)
    (auditOk notifyOk : Bool) : Except LoanErr LoanRow × DB :=
  match db.loans.find? (fun l => l.id = loanId) with
  | none => (.error .notFound, db)
  | some loan =>
    if loan.status ≠ LoanStatus.APPROVED then (.error .invalidState, db)
    else if loan.bankerId ≠ some bankerId then (.error .forbidden, db)
    else
      match referenceId with
      | none => (.error .badRequest, db)
      | some refId =>
        if refId = "" then (.error .badRequest, db)
        else if !auditOk then (.error .internalError, db)
        else
          let newMeta := { loan.metadata with
                           disbursement := some { referenceId := refId,
                                                  notes := notes } }
          let updated := { loan with status := .DISBURSED, metadata := newMeta }
          let committed :=
            { db with loans := updateLoanRows db.loans updated
                      auditLogs := db.auditLogs ++
                        [{ entityType := "LOAN", entityId := loanId,
                           action := "LOAN_DISBURSED", actorId := bankerId,
                           details := some ("Ref: " ++ refId) }] }
          let after :=
            if notifyOk then
              { committed with notifications := committed.notifications ++
                  [{ userId := loan.applicantId, ntype := "LOAN_DISBURSED",
                     message := "Your loan has been disbursed." }] ++
                  (if loan.merchantId ≠ loan.applicantId then
                    [{ userId := loan.merchantId, ntype := "LOAN_DISBURSED",
                       message := "Loan has been disbursed." }]
                   else []) }
            else committed
          (.ok updated, after)

/-- `LoanService.cancelLoan`: note the ownership check precedes the
status check in the source. -/
def cancelLoan (db : DB) (loanId : Nat) (userId : String)
    (reason : Option String) (auditOk : Bool) : Except LoanErr LoanRow × DB :=
  match db.loans.find? (fun l => l.id = loanId) with
  | none => (.error .notFound, db)
  | some loan =>
    if loan.applicantId ≠ userId ∧ loan.merchantId ≠ userId then
      (.error .forbidden, db)
    else if loan.status ∉ [LoanStatus.DRAFT, LoanStatus.SUBMITTED,
                           LoanStatus.UNDER_REVIEW, LoanStatus.APPROVED] then
      (.error .invalidState, db)
    else if !auditOk then (.error .internalError, db)
    else
      let updated := { loan with status := .CANCELLED }
      (.ok updated,
       { db with loans := updateLoanRows db.loans updated
                 auditLogs := db.auditLogs ++
                   [{ entityType := "LOAN", entityId := loanId,
                      action := "LOAN_CANCELLED", actorId := userId,
                      details := reason }] })

/-- The URL prefix in front of the public id in every stored document URL:
`https://res.cloudinary.com/<cloud>/image/upload/<folder>/`. -/
def storageUrlBase (env : ExtEnv) : String :=
  "https://res.cloudinary.com/" ++ env.cloudName ++ "/image/upload/" ++
    env.kycFolder ++ "/"

/-- Full Cloudinary delivery URL for a structured public id. -/
def storageUrl (env : ExtEnv) (publicId : String) : String :=
  storageUrlBase env ++ publicId

/-- The `{userId}/{docType}/` namespace prefix of a structured locator. -/
def locatorBase (userId : String) (docType : DocType) : String :=
  userId ++ "/" ++ docTypeStr docType ++ "/"

/-- The server-reconstructed locator `completeUpload` enforces:
`{ownerUserId}/{docType}/{docId}`. -/
def expectedPublicIdOf (doc : KYCDocRow) : String :=
  locatorBase doc.userId doc.docType ++ doc.id

/-- What `KYCService.generateUploadUrl` returns to the client (the
signature, api key and instructions fields are opaque to the claims). -/
structure UploadInfo where
  kycDocId : String
  publicId : String
  expectedFinalUrl : String
deriving DecidableEq, Repr

/-- `KYCService.generateUploadUrl` (with `KYCService.createKYCDocument`
inlined): `uuid` and `ts` are the externally generated `uuidv4()` and
`Date.now()` strings, `newId` the database id minted for the new
`KYCDocument` row. -/
def generateUploadUrl (db : DB) (env : ExtEnv) (userId : String)
    (docType : DocType) (uuid : String) (ts : String) (newId : String) :
    UploadInfo × DB :=
  let structuredPublicId :=
    locatorBase userId docType ++ (uuid ++ "-" ++ ts)
  let newDoc : KYCDocRow :=
    { id := newId, userId := userId, docType := docType,
      status := .UPLOADING, url := some (storageUrl env structuredPublicId) }
  ({ kycDocId := newId, publicId := structuredPublicId,
     expectedFinalUrl := storageUrl env structuredPublicId },
   { db with kycDocs := db.kycDocs ++ [newDoc] })

/-- `KYCService.completeUpload`: the client-supplied `publicId` is compared
against the server-reconstructed locator and overwritten on mismatch; the
413 (size) and 415 (content type) rejections map to `badRequest`. -/
def completeUpload (db : DB) (env : ExtEnv) (kycDocId : String)
    (publicId : String) (fileSize : Nat) (contentType : String) :
    Except LoanErr KYCDocRow × DB :=
  match db.kycDocs.find? (fun d => d.id = kycDocId) with
  | none => (.error .notFound, db)
  | some existingDoc =>
    let expected := expectedPublicIdOf existingDoc
    let pid := if publicId = expected then publicId else expected
    if fileSize > env.maxFileSize then (.error .badRequest, db)
    else if contentType ∉ env.allowedTypes then (.error .badRequest, db)
    else
      let updated := { existingDoc with url := some (storageUrl env pid),
                                        status := .PENDING,
                                        verifiedBy := none }
      (.ok updated,
       { db with
           kycDocs := db.kycDocs.map
             (fun d => if d.id = kycDocId then updated else d)
           kycAuditLogs := db.kycAuditLogs ++
             [{ kycDocId := kycDocId, action := "DOCUMENT_UPLOADED",
                actorId := none,
                details := "File uploaded: " ++ toString fileSize ++
                  " bytes, " ++ contentType }] })

/-- `KYCService.syncLoansKYCStatus`: recompute the user's readiness (with
no loan-type hint) and overwrite the cached `kycStatus` of every open loan
of that applicant.  The source computes `'PENDING'` in both non-complete
branches of its conditional, which collapses here. -/
def syncLoansKYCStatus (db : DB) (userId : String) : DB :=
  match findUser db userId with
  | none => db
  | some u =>
    let readiness := isKYCComplete db userId u.role none
    let newKycStatus :=
      if readiness.complete then KycCache.VERIFIED else KycCache.PENDING
    { db with loans := db.loans.map (fun l =>
        if l.applicantId = userId ∧
           l.status ∈ [LoanStatus.SUBMITTED, LoanStatus.UNDER_REVIEW] then
          { l with kycStatus := newKycStatus }
        else l) }

/-- `KYCService.verifyKYCDocument`.  `newStatus` is the raw status string
(validated against VERIFIED/REJECTED).  `kycAuditOk` = whether
`createKYCAuditLog`'s insert succeeds (its failure is swallowed inside
that helper); `notifOk` = whether the awaited `prisma.notification.create`
succeeds (its failure propagates out of the service after the document
row was already updated — there is no enclosing transaction); `emailOk` =
whether the fire-and-forget e-mail send succeeds (caught, never
observable). -/
def verifyKYCDocument (db : DB) (kycDocId : String) (newStatus : String)
    (bankerId : String) (notes : String)
    (kycAuditOk notifOk emailOk : Bool) : Except LoanErr KYCDocRow × DB :=
  let _ := emailOk
  if newStatus ∉ ["VERIFIED", "REJECTED"] then (.error .badRequest, db)
  else
    match db.kycDocs.find? (fun d => d.id = kycDocId) with
    | none => (.error .notFound, db)
    | some doc =>
      let st := if newStatus = "VERIFIED" then KYCStatus.VERIFIED
                else KYCStatus.REJECTED
      let updated := { doc with status := st,
                                verifiedBy :=
                                  if newStatus = "VERIFIED" then some bankerId
                                  else none }
      let db1 := { db with kycDocs :=
                     db.kycDocs.map (fun d => if d.id = kycDocId then updated else d) }
      let db2 :=
        if kycAuditOk then
          { db1 with kycAuditLogs := db1.kycAuditLogs ++
              [{ kycDocId := kycDocId,
                 action := if newStatus = "VERIFIED" then "KYC_VERIFIED"
                           else "KYC_REJECTED",
                 actorId := some bankerId, details := notes }] }
        else db1
      if !notifOk then (.error .internalError, db2)
      else
        let db3 := { db2 with notifications := db2.notifications ++
            [{ userId := doc.userId, ntype := "KYC_UPDATE",
               message := "Your " ++ getDocTypeName doc.docType ++
                 " document has been " ++ newStatus ++ "." }] }
        let db4 := syncLoansKYCStatus db3 doc.userId
        (.ok updated, db4)

/-- `adminUserService.updateUserStatus` (the first class in the file the
admin controller requires): its signature is `(userId, status)` — it has
no parameter for, and never reads, the identity of the acting admin. -/
def updateUserStatus (db : DB) (userId : String) (status : String) :
    Except LoanErr UserRow × DB :=
  match findUser db userId with
  | none => (.error .notFound, db)
  | some u =>
    let updated := { u with status := status }
    (.ok updated,
     { db with users :=
         db.users.map (fun x => if x.id = userId then updated else x) })

/-- `AdminUserController.updateUserStatus`: validates the requested status
value and calls `adminUserService.updateUserStatus(id, status,
req.user.userId)`; JS silently drops the third argument because the
service's signature only declares two parameters. -/
def adminUpdateUserStatus (db : DB) (actorUserId : String)
    (targetId : String) (status : String) : Except LoanErr UserRow × DB :=
  let _ := actorUserId
  if status ∉ ["ACTIVE", "SUSPENDED", "PENDING", "REJECTED"] then
    (.error .badRequest, db)
  else updateUserStatus db targetId status

/-- The applicant discriminated union of `applyForLoan`'s `data.applicant`
(`invalid` stands for any `type` string other than the three accepted
ones). -/
inductive ApplicantSpec
  | merchant
  | existing (customerId : Option String)
  | newCustomer (name email phone address : Option String)
  | invalid
deriving DecidableEq, Repr

/-- A submitted document object as the client sends it: both JS field
aliases are kept (`docTag` stands for the JS field named `type`). -/
structure ApplyDoc where
  public_id : Option String := none
  publicId : Option String := none
  secure_url : Option String := none
  secureUrl : Option String := none
  docTag : Option String := none
  fileType : Option String := none
  filename : Option String := none
  bytes : Nat := 0
deriving DecidableEq, Repr

/-- The `data` argument of `applyForLoan`. -/
structure ApplyData where
  applicant : ApplicantSpec
  loanTypeId : Nat
  amount : Int
  tenorMonths : Nat
  metadata : Metadata := { fields := [] }
  documents : List ApplyDoc := []
deriving DecidableEq, Repr

/-- `doc.public_id || doc.publicId`. -/
def pidOf (d : ApplyDoc) : Option String := jsOrS d.public_id d.publicId

/-- One document's check in `applyForLoan`'s verification step: a missing
locator fails, then the locator's namespace prefix must be the uploading
merchant's id or the beneficiary customer's id, then the resource must
exist in the backing store (the Document Ownership Verifier). -/
def docVerified (env : ExtEnv) (merchantId : String)
    (customerId : Option String) (d : ApplyDoc) : Bool :=
  match pidOf d with
  | none => false
  | some pid =>
    if pid = "" then false
    else
      let isMerchantDoc := strStartsWith pid merchantId
      let isCustomerDoc :=
        match customerId with
        | some cid => if cid = "" then false else strStartsWith pid cid
        | none => false
      if !isMerchantDoc && !isCustomerDoc then false
      else env.resourceExists pid

/-- The Prisma schema's column default for a new user's `status`; the
schema file is not among the sources and no claim reads the value. -/
def defaultUserStatus : String := "ACTIVE"

/-- The applicant-resolution block of `applyForLoan` (the `if/else if`
chain on `applicant.type`), returning the beneficiary customer id and the
store as it stands afterwards.  The `new` branch persists the CUSTOMER
account (and its best-effort merchant link) immediately — outside the
later loan transaction; password hashing, verification-token fields and
the fire-and-forget verification e-mail are not observable here. -/
def resolveApplicant (db : DB) (applicant : ApplicantSpec)
    (merchantId : String) (newUserId : String) :
    Except LoanErr (Option String × DB) :=
  match applicant with
  | .merchant => .ok (none, db)
  | .existing customerId =>
    if !(jsTruthy customerId) then .error .badRequest
    else
      let cid := customerId.getD ""
      match findUser db cid with
      | none => .error .notFound
      | some c => if c.role ≠ Role.CUSTOMER then .error .notFound
                  else .ok (some cid, db)
  | .newCustomer name email phone _address =>
    if !(jsTruthy name) || !(jsTruthy email) || !(jsTruthy phone) then
      .error .badRequest
    else
      let normalizedEmail := normalizedEmailOf email
      if db.users.any (fun u => u.email = normalizedEmail) then
        .error .conflict
      else
        let link :=
          match findUser db merchantId with
          | some m => if m.hasMerchantProfile then some merchantId else none
          | none => none
        let newUser : UserRow :=
          { id := newUserId, role := .CUSTOMER, email := normalizedEmail,
            status := defaultUserStatus, merchantLink := link }
        .ok (some newUserId, { db with users := db.users ++ [newUser] })
  | .invalid => .error .badRequest

/-- The `Document` row `applyForLoan`'s transaction inserts for one
submitted document. -/
def mkDocumentRow (newLoanId : Nat) (merchantId : String)
    (d : ApplyDoc) : DocumentRow :=
  { loanId := newLoanId
    publicId := pidOf d
    secureUrl := jsOrS d.secure_url d.secureUrl
    url := jsOrS d.secure_url d.secureUrl
    filename := d.filename
    fileType := jsOrS d.docTag d.fileType
    docTag := (jsOrS d.docTag (some "attachment")).getD "attachment"
    bytes := d.bytes
    uploaderId := merchantId }

/-- `LoanService.applyForLoan`.  `newUserId` / `newLoanId` are the
database ids minted for the rows the call may create; `auditOk` is
whether the final transaction's audit insert succeeds (failure rolls the
whole transaction back). -/
def applyForLoan (db : DB) (env : ExtEnv) (data : ApplyData)
    (merchantId : String) (newUserId : String) (newLoanId : Nat)
    (auditOk : Bool) : Except LoanErr LoanRow × DB :=
  match db.loanTypes.find? (fun lt => lt.id = data.loanTypeId) with
  | none => (.error .notFound, db)
  | some loanType =>
    if (match loanType.schema with
        | some s => !(env.schemaValid s data.metadata)
        | none => false) then (.error .badRequest, db)
    else
      let uploadedDocTypes := data.documents.map (fun d => jsOrS d.docTag d.fileType)
      let missingDocs := loanType.requiredDocuments.filter
        (fun req => some req ∉ uploadedDocTypes)
      if missingDocs ≠ [] then (.error .badRequest, db)
      else
        match resolveApplicant db data.applicant merchantId newUserId with
        | .error e => (.error e, db)
        | .ok (customerId, db1) =>
          let invalidDocs := data.documents.filter
            (fun d => !(docVerified env merchantId customerId d))
          if invalidDocs ≠ [] then
            (.error (.docVerificationFailed (invalidDocs.map
               (fun d => (jsOrS d.filename d.public_id).getD ""))), db1)
          else if !auditOk then (.error .internalError, db1)
          else
            let newLoan : LoanRow :=
              { id := newLoanId
                loanTypeId := data.loanTypeId
                merchantId := merchantId
                applicantId := (jsOrS customerId (some merchantId)).getD merchantId
                amount := data.amount
                tenorMonths := data.tenorMonths
                metadata := data.metadata
                status := .SUBMITTED
                kycStatus := .PENDING }
            (.ok newLoan,
             { db1 with
                 loans := db1.loans ++ [newLoan]
                 documents := db1.documents ++
                   data.documents.map (mkDocumentRow newLoanId merchantId)
                 auditLogs := db1.auditLogs ++
                   [{ entityType := "LOAN", entityId := newLoanId,
                      action := "LOAN_APPLIED", actorId := merchantId }] })

/-! General helper lemmas. -/

theorem string_data_inj {a b : String} (h : a.data = b.data) : a = b := by
  cases a; cases b; exact congrArg String.mk h

theorem append_left_cancel_ne (p : String) {a b : String} (h : a ≠ b) :
    p ++ a ≠ p ++ b := by
  intro he
  apply h
  have hd : p.data ++ a.data = p.data ++ b.data := congrArg String.data he
  exact string_data_inj (List.append_cancel_left hd)

theorem forced_if (p e : String) : (if p = e then p else e) = e := by
  by_cases h : p = e <;> simp [h]

theorem find?_append_left_none {α} (p : α → Bool) (l₁ l₂ : List α)
    (h : ∀ a ∈ l₁, p a = false) : (l₁ ++ l₂).find? p = l₂.find? p := by
  induction l₁ with
  | nil => simp
  | cons x xs ih =>
    have hx : p x = false := h x (by simp)
    have ih2 := ih (fun a ha => h a (by simp [ha]))
    simp [List.find?_cons, hx, ih2]

/-- The user has at least one document of type `t` in VERIFIED status. -/
def hasVerifiedDoc (db : DB) (userId : String) (t : DocType) : Prop :=
  ∃ d ∈ db.kycDocs, d.userId = userId ∧ d.docType = t ∧ d.status = KYCStatus.VERIFIED

instance (db : DB) (userId : String) (t : DocType) :
    Decidable (hasVerifiedDoc db userId t) := by
  unfold hasVerifiedDoc; infer_instance

/-- Modelled from the spec's formula for `percentComplete`:
round(100 × (required − missing)/required), and 0 when no requirements
apply; written with exact natural arithmetic, half rounding up. -/
def specPercentComplete (required missing : Nat) : Nat :=
  if required = 0 then 0
  else (200 * (required - missing) + required) / (2 * required)

theorem mem_verified_types_iff (db : DB) (u : String) (t : DocType) :
    t ∈ ((getUserKYCDocuments db u).filter
          (fun d => d.status = KYCStatus.VERIFIED)).map (fun d => d.docType) ↔
      hasVerifiedDoc db u t := by
  simp only [getUserKYCDocuments, hasVerifiedDoc, List.mem_map, List.mem_filter,
    decide_eq_true_eq]
  constructor
  · rintro ⟨d, ⟨⟨hmem, hu⟩, hv⟩, ht⟩
    exact ⟨d, hmem, hu, ht, hv⟩
  · rintro ⟨d, hmem, hu, ht, hv⟩
    exact ⟨d, ⟨⟨hmem, hu⟩, hv⟩, ht⟩

/-- C5 (amended): `isKYCComplete` returns `complete = true` exactly when the
required set is non-empty AND every required type has at least one VERIFIED
document for the user (so REJECTED/PENDING never satisfy a requirement, and
an empty required set yields `complete = false`, not vacuous truth); the
required set is `getRequiredDocuments role hint`; and `percentComplete`
follows the spec's rounding formula, 0 when no requirements apply. -/
theorem isKYCComplete_characterisation (db : DB) (userId : String)
    (role : Role) (hint : Option String) :
    ((isKYCComplete db userId role hint).complete = true ↔
      ((isKYCComplete db userId role hint).requiredTypes ≠ [] ∧
        ∀ t ∈ (isKYCComplete db userId role hint).requiredTypes,
          hasVerifiedDoc db userId t)) ∧
    (isKYCComplete db userId role hint).requiredTypes =
      getRequiredDocuments role hint ∧
    (isKYCComplete db userId role hint).percentComplete =
      specPercentComplete (isKYCComplete db userId role hint).requiredTypes.length
        (isKYCComplete db userId role hint).missingTypes.length := by
  refine ⟨?_, ?_, ?_⟩
  · simp only [isKYCComplete, Bool.and_eq_true, List.isEmpty_iff,
      Bool.not_eq_true', List.isEmpty_eq_false, ne_eq]
    constructor
    · rintro ⟨hmiss, hreq⟩
      refine ⟨by simpa using hreq, ?_⟩
      intro t ht
      have := List.filter_eq_nil_iff.mp hmiss t ht
      have hmem : t ∈ ((getUserKYCDocuments db userId).filter
          (fun d => d.status = KYCStatus.VERIFIED)).map (fun d => d.docType) := by
        by_contra hc
        exact this (by simpa using hc)
      exact (mem_verified_types_iff db userId t).mp hmem
    · rintro ⟨hreq, hall⟩
      refine ⟨List.filter_eq_nil_iff.mpr ?_, by simpa using hreq⟩
      intro t ht
      have := (mem_verified_types_iff db userId t).mpr (hall t ht)
      simp [this]
  · rfl
  · simp only [isKYCComplete, specPercentComplete, round100]
    by_cases h : (getRequiredDocuments role hint).length = 0 <;> simp [h]

/-- The empty store. -/
def dbEmpty : DB :=
  { users := [], loanTypes := [], loans := [], documents := [], kycDocs := [],
    auditLogs := [], kycAuditLogs := [], notifications := [] }

/-- C5 counterexample: for a BANKER (empty required set) the claim's
"complete = true exactly when every required type is verified (vacuously
true when the required set is empty)" fails — the code returns
`complete = false` when no requirements apply. -/
theorem isKYCComplete_vacuous_counterexample :
    ¬ (((isKYCComplete dbEmpty "u1" Role.BANKER none).complete = true) ↔
        (∀ t ∈ (isKYCComplete dbEmpty "u1" Role.BANKER none).requiredTypes,
          hasVerifiedDoc dbEmpty "u1" t)) := by
  decide

/-- C1: `approveLoan` succeeds only if the KYC readiness it queries for the
loan's applicant (with the loan-type hint) reports `complete = true`; and
when the readiness is incomplete (and the other preconditions hold) it
fails with the distinguished KYC-incomplete error carrying the missing
document-type list and percent-complete, leaving the store — hence the
loan's status, kycStatus and interestRate — unchanged. -/
theorem approveLoan_kyc_gate (db : DB) (loanId : Nat) (bankerId : String)
    (notes : Option String) (rate : Option Int) (auditOk notifyOk : Bool)
    (loan : LoanRow)
    (hfind : db.loans.find? (fun l => l.id = loanId) = some loan) :
    (∀ res db',
      approveLoan db loanId bankerId notes rate auditOk notifyOk = (.ok res, db') →
        (approveReadiness db loan).complete = true) ∧
    ((approveReadiness db loan).complete = false →
      loan.status = .UNDER_REVIEW → loan.bankerId = some bankerId →
      ∀ r, rate = some r → 0 < r →
        approveLoan db loanId bankerId notes rate auditOk notifyOk =
          (.error (.kycIncomplete (approveReadiness db loan).missingTypes
            (approveReadiness db loan).percentComplete), db)) := by
  constructor
  · intro res db' h
    simp only [approveLoan, hfind] at h
    split at h
    · simp at h
    · split at h
      · simp at h
      · split at h
        · simp at h
        · split at h
          · simp at h
          · split at h
            · simp at h
            · split at h
              · simp at h
              · simp_all
  · intro hc hst hb r hr hrpos
    subst hr
    have hrle : ¬ (r ≤ 0) := by omega
    simp [approveLoan, hfind, hst, hb, hrle, hc]

/-- C2 (amended): on a found loan, each lifecycle operation invoked outside
its source-status set fails with the invalid-state-transition error and
leaves the store unchanged — unconditionally for `assignBanker`
({SUBMITTED, UNDER_REVIEW}), `approveLoan`/`rejectLoan` ({UNDER_REVIEW})
and `disburseLoan` ({APPROVED}); for `cancelLoan`
({DRAFT, SUBMITTED, UNDER_REVIEW, APPROVED}) only for a caller who is the
applicant or the submitting merchant, because the source checks ownership
first: any other caller gets Forbidden whatever the status.  Within each
operation's source set the operation never fails with the
invalid-state-transition error. -/
theorem lifecycle_state_machine (db : DB) (loanId : Nat) (loan : LoanRow)
    (hfind : db.loans.find? (fun l => l.id = loanId) = some loan) :
    (∀ bankerId assignedBy auditOk,
      loan.status ∉ [LoanStatus.SUBMITTED, LoanStatus.UNDER_REVIEW] →
        assignBanker db loanId bankerId assignedBy auditOk =
          (.error .invalidState, db)) ∧
    (∀ bankerId notes rate auditOk notifyOk,
      loan.status ≠ LoanStatus.UNDER_REVIEW →
        approveLoan db loanId bankerId notes rate auditOk notifyOk =
          (.error .invalidState, db)) ∧
    (∀ bankerId notes auditOk notifyOk,
      loan.status ≠ LoanStatus.UNDER_REVIEW →
        rejectLoan db loanId bankerId notes auditOk notifyOk =
          (.error .invalidState, db)) ∧
    (∀ bankerId refId notes auditOk notifyOk,
      loan.status ≠ LoanStatus.APPROVED →
        disburseLoan db loanId bankerId refId notes auditOk notifyOk =
          (.error .invalidState, db)) ∧
    (∀ userId reason auditOk,
      (loan.applicantId = userId ∨ loan.merchantId = userId) →
      loan.status ∉ [LoanStatus.DRAFT, LoanStatus.SUBMITTED,
                     LoanStatus.UNDER_REVIEW, LoanStatus.APPROVED] →
        cancelLoan db loanId userId reason auditOk =
          (.error .invalidState, db)) ∧
    (∀ userId reason auditOk,
      loan.applicantId ≠ userId → loan.merchantId ≠ userId →
        cancelLoan db loanId userId reason auditOk = (.error .forbidden, db)) ∧
    (∀ bankerId assignedBy auditOk,
      loan.status ∈ [LoanStatus.SUBMITTED, LoanStatus.UNDER_REVIEW] →
        (assignBanker db loanId bankerId assignedBy auditOk).1 ≠
          .error .invalidState) ∧
    (∀ bankerId notes rate auditOk notifyOk,
      loan.status = LoanStatus.UNDER_REVIEW →
        (approveLoan db loanId bankerId notes rate auditOk notifyOk).1 ≠
          .error .invalidState) ∧
    (∀ bankerId notes auditOk notifyOk,
      loan.status = LoanStatus.UNDER_REVIEW →
        (rejectLoan db loanId bankerId notes auditOk notifyOk).1 ≠
          .error .invalidState) ∧
    (∀ bankerId refId notes auditOk notifyOk,
      loan.status = LoanStatus.APPROVED →
        (disburseLoan db loanId bankerId refId notes auditOk notifyOk).1 ≠
          .error .invalidState) ∧
    (∀ userId reason auditOk,
      loan.status ∈ [LoanStatus.DRAFT, LoanStatus.SUBMITTED,
                     LoanStatus.UNDER_REVIEW, LoanStatus.APPROVED] →
        (cancelLoan db loanId userId reason auditOk).1 ≠
          .error .invalidState) := by
  refine ⟨?_, ?_, ?_, ?_, ?_, ?_, ?_, ?_, ?_, ?_, ?_⟩
  · intro bankerId assignedBy auditOk h
    simp [assignBanker, hfind, h]
  · intro bankerId notes rate auditOk notifyOk h
    simp [approveLoan, hfind, h]
  · intro bankerId notes auditOk notifyOk h
    simp [rejectLoan, hfind, h]
  · intro bankerId refId notes auditOk notifyOk h
    simp [disburseLoan, hfind, h]
  · intro userId reason auditOk hown h
    have hOwnFalse : ¬ (loan.applicantId ≠ userId ∧ loan.merchantId ≠ userId) := by
      rcases hown with h1 | h1 <;> simp [h1]
    simp [cancelLoan, hfind, hOwnFalse, h]
  · intro userId reason auditOk h1 h2
    simp [cancelLoan, hfind, h1, h2]
  · intro bankerId assignedBy auditOk h
    simp only [assignBanker, hfind]
    repeat' split
    all_goals simp_all
  · intro bankerId notes rate auditOk notifyOk h
    simp only [approveLoan, hfind, h]
    repeat' split
    all_goals simp_all
  · intro bankerId notes auditOk notifyOk h
    simp only [rejectLoan, hfind, h]
    repeat' split
    all_goals simp_all
  · intro bankerId refId notes auditOk notifyOk h
    simp only [disburseLoan, hfind, h]
    repeat' split
    all_goals simp_all
  · intro userId reason auditOk h
    simp only [cancelLoan, hfind]
    repeat' split
    all_goals simp_all

/-- C7: on a found loan in the right status, `approveLoan`, `rejectLoan`
and `disburseLoan` called by any banker other than the assigned one fail
with the Forbidden error and leave the store unchanged, and a successful
call implies the caller is exactly the assigned banker. -/
theorem assigned_banker_only (db : DB) (loanId : Nat) (caller : String)
    (loan : LoanRow)
    (hfind : db.loans.find? (fun l => l.id = loanId) = some loan) :
    (∀ notes rate auditOk notifyOk,
      loan.status = LoanStatus.UNDER_REVIEW → loan.bankerId ≠ some caller →
        approveLoan db loanId caller notes rate auditOk notifyOk =
          (.error .forbidden, db)) ∧
    (∀ notes rate auditOk notifyOk res db',
      approveLoan db loanId caller notes rate auditOk notifyOk = (.ok res, db') →
        loan.bankerId = some caller) ∧
    (∀ notes auditOk notifyOk,
      loan.status = LoanStatus.UNDER_REVIEW → loan.bankerId ≠ some caller →
        rejectLoan db loanId caller notes auditOk notifyOk =
          (.error .forbidden, db)) ∧
    (∀ notes auditOk notifyOk res db',
      rejectLoan db loanId caller notes auditOk notifyOk = (.ok res, db') →
        loan.bankerId = some caller) ∧
    (∀ refId notes auditOk notifyOk,
      loan.status = LoanStatus.APPROVED → loan.bankerId ≠ some caller →
        disburseLoan db loanId caller refId notes auditOk notifyOk =
          (.error .forbidden, db)) ∧
    (∀ refId notes auditOk notifyOk res db',
      disburseLoan db loanId caller refId notes auditOk notifyOk = (.ok res, db') →
        loan.bankerId = some caller) := by
  refine ⟨?_, ?_, ?_, ?_, ?_, ?_⟩
  · intro notes rate auditOk notifyOk hst hb
    simp [approveLoan, hfind, hst, hb]
  · intro notes rate auditOk notifyOk res db' h
    simp only [approveLoan, hfind] at h
    repeat' split at h
    all_goals simp_all
  · intro notes auditOk notifyOk hst hb
    simp [rejectLoan, hfind, hst, hb]
  · intro notes auditOk notifyOk res db' h
    simp only [rejectLoan, hfind] at h
    repeat' split at h
    all_goals simp_all
  · intro refId notes auditOk notifyOk hst hb
    simp [disburseLoan, hfind, hst, hb]
  · intro refId notes auditOk notifyOk res db' h
    simp only [disburseLoan, hfind] at h
    repeat' split at h
    all_goals simp_all

/-- C3: the result of `completeUpload` — error or success, returned row and
post-state alike — is identical for any two client-supplied locators, and
on success the persisted URL is built from the server-reconstructed
locator `{ownerUserId}/{docType}/{docId}` of the pre-existing document,
never from the client's locator. -/
theorem completeUpload_ignores_client_locator (db : DB) (env : ExtEnv)
    (kycDocId p1 p2 : String) (fileSize : Nat) (contentType : String) :
    completeUpload db env kycDocId p1 fileSize contentType =
      completeUpload db env kycDocId p2 fileSize contentType ∧
    (∀ d0, db.kycDocs.find? (fun d => d.id = kycDocId) = some d0 →
      ∀ res db',
        completeUpload db env kycDocId p1 fileSize contentType = (.ok res, db') →
          res.url = some (storageUrl env (expectedPublicIdOf d0))) := by
  constructor
  · cases h : db.kycDocs.find? (fun d => d.id = kycDocId) with
    | none => simp [completeUpload, h]
    | some d0 => simp [completeUpload, h, forced_if]
  · intro d0 hf res db' h
    simp only [completeUpload, hf, forced_if] at h
    repeat' split at h
    all_goals try simp_all
    all_goals obtain ⟨h1, h2⟩ := h
    all_goals subst h1
    all_goals rfl

theorem completeUpload_success_shape (db : DB) (env : ExtEnv)
    (docId p : String) (fileSize : Nat) (contentType : String) (d0 : KYCDocRow)
    (hf : db.kycDocs.find? (fun d => d.id = docId) = some d0)
    (hsize : fileSize ≤ env.maxFileSize) (hct : contentType ∈ env.allowedTypes) :
    ∃ db', completeUpload db env docId p fileSize contentType =
      (.ok { d0 with url := some (storageUrl env (expectedPublicIdOf d0)),
                     status := .PENDING, verifiedBy := none }, db') := by
  have h1 : (completeUpload db env docId p fileSize contentType).1 =
      .ok { d0 with url := some (storageUrl env (expectedPublicIdOf d0)),
                    status := .PENDING, verifiedBy := none } := by
    simp only [completeUpload, hf, forced_if]
    rw [if_neg (by omega), if_neg (by simp [hct])]
  exact ⟨(completeUpload db env docId p fileSize contentType).2, by rw [← h1]⟩

/-- C10: `generateUploadUrl` issues the locator
`{userId}/{docType}/{uuid}-{timestamp}` while `completeUpload` expects
`{userId}/{docType}/{docId}`; whenever the uuid-timestamp suffix differs
from the freshly minted document id, completing the upload with exactly
the issued locator takes the mismatch branch (the issued locator is not
the server-reconstructed one) and the URL persisted at completion differs
from the `expectedFinalUrl` upload target the client was given. -/
theorem generateUploadUrl_locator_mismatch (db : DB) (env : ExtEnv)
    (userId : String) (docType : DocType) (uuid ts newId : String)
    (fileSize : Nat) (contentType : String)
    (hfresh : ∀ d ∈ db.kycDocs, d.id ≠ newId)
    (hneq : uuid ++ "-" ++ ts ≠ newId)
    (hsize : fileSize ≤ env.maxFileSize)
    (hct : contentType ∈ env.allowedTypes) :
    (generateUploadUrl db env userId docType uuid ts newId).1.publicId ≠
      locatorBase userId docType ++ newId ∧
    ∃ res db2,
      completeUpload (generateUploadUrl db env userId docType uuid ts newId).2
          env newId (generateUploadUrl db env userId docType uuid ts newId).1.publicId
          fileSize contentType = (.ok res, db2) ∧
      res.url = some (storageUrl env (locatorBase userId docType ++ newId)) ∧
      res.url ≠
        some (generateUploadUrl db env userId docType uuid ts newId).1.expectedFinalUrl := by
  have hne : locatorBase userId docType ++ (uuid ++ "-" ++ ts) ≠
      locatorBase userId docType ++ newId :=
    append_left_cancel_ne _ hneq
  constructor
  · simpa [generateUploadUrl] using hne
  · have hf : (generateUploadUrl db env userId docType uuid ts newId).2.kycDocs.find?
        (fun d => d.id = newId) = some
          { id := newId, userId := userId, docType := docType, status := .UPLOADING,
            url := some (storageUrl env (locatorBase userId docType ++ (uuid ++ "-" ++ ts))),
            verifiedBy := none } := by
      simp only [generateUploadUrl]
      rw [find?_append_left_none _ _ _ (fun d hd => by simp [hfresh d hd])]
      simp [List.find?]
    obtain ⟨db2, heq⟩ := completeUpload_success_shape _ env newId
      (generateUploadUrl db env userId docType uuid ts newId).1.publicId
      fileSize contentType _ hf hsize hct
    refine ⟨_, db2, heq, by simp [expectedPublicIdOf, locatorBase, docTypeStr], ?_⟩
    have hurlne : storageUrl env (locatorBase userId docType ++ newId) ≠
        storageUrl env (locatorBase userId docType ++ (uuid ++ "-" ++ ts)) :=
      append_left_cancel_ne _ (Ne.symm hne)
    simpa [generateUploadUrl, expectedPublicIdOf, locatorBase, docTypeStr] using hurlne

/-- The beneficiary customer id `applyForLoan` resolves for each applicant
shape (the id a freshly created customer would get included). -/
def plannedCustomerId (a : ApplicantSpec) (newUserId : String) : Option String :=
  match a with
  | .merchant => none
  | .existing cid => if jsTruthy cid then some (cid.getD "") else none
  | .newCustomer _ _ _ _ => some newUserId
  | .invalid => none

theorem resolveApplicant_shape (db : DB) (a : ApplicantSpec) (m n : String)
    (cid : Option String) (db1 : DB)
    (h : resolveApplicant db a m n = .ok (cid, db1)) :
    cid = plannedCustomerId a n ∧ db1.loans = db.loans ∧
    db1.documents = db.documents ∧ db1.auditLogs = db.auditLogs := by
  cases a <;> simp only [resolveApplicant] at h <;>
    (try (repeat' split at h)) <;> (try simp_all [plannedCustomerId]) <;>
    (obtain ⟨h1, h2⟩ := h; subst h2; simp)

/-- C4: if any submitted document fails the existence-or-ownership check
(against the submitting merchant id and the resolved beneficiary id),
`applyForLoan` fails; every failing call leaves the Loan, Document and
AuditLog tables exactly as they were (zero rows persisted); and a
successful call appends, in one atomic step, the new Loan
(status SUBMITTED, kycStatus PENDING), one Document row per submitted
document, and exactly one LOAN_APPLIED audit entry. -/
theorem applyForLoan_atomicity (db : DB) (env : ExtEnv) (data : ApplyData)
    (merchantId newUserId : String) (newLoanId : Nat) (auditOk : Bool) :
    ((∃ d ∈ data.documents,
        docVerified env merchantId (plannedCustomerId data.applicant newUserId) d = false) →
      ∃ e, (applyForLoan db env data merchantId newUserId newLoanId auditOk).1 = .error e) ∧
    (∀ e, (applyForLoan db env data merchantId newUserId newLoanId auditOk).1 = .error e →
      (applyForLoan db env data merchantId newUserId newLoanId auditOk).2.loans = db.loans ∧
      (applyForLoan db env data merchantId newUserId newLoanId auditOk).2.documents = db.documents ∧
      (applyForLoan db env data merchantId newUserId newLoanId auditOk).2.auditLogs = db.auditLogs) ∧
    (∀ res db', applyForLoan db env data merchantId newUserId newLoanId auditOk = (.ok res, db') →
      res.status = .SUBMITTED ∧ res.kycStatus = .PENDING ∧
      db'.loans = db.loans ++ [res] ∧
      db'.documents = db.documents ++ data.documents.map (mkDocumentRow newLoanId merchantId) ∧
      db'.auditLogs = db.auditLogs ++
        [{ entityType := "LOAN", entityId := newLoanId,
           action := "LOAN_APPLIED", actorId := merchantId }]) := by
  simp only [applyForLoan]
  split
  · exact ⟨fun _ => ⟨.notFound, rfl⟩, fun e _ => ⟨rfl, rfl, rfl⟩, fun res db' h => by simp at h⟩
  · split
    · exact ⟨fun _ => ⟨.badRequest, rfl⟩, fun e _ => ⟨rfl, rfl, rfl⟩, fun res db' h => by simp at h⟩
    · split
      · exact ⟨fun _ => ⟨.badRequest, rfl⟩, fun e _ => ⟨rfl, rfl, rfl⟩, fun res db' h => by simp at h⟩
      · split
        · exact ⟨fun _ => ⟨_, rfl⟩, fun e _ => ⟨rfl, rfl, rfl⟩, fun res db' h => by simp at h⟩
        · next cid db1 heq =>
          obtain ⟨hcid, hloans, hdocs, haudit⟩ :=
            resolveApplicant_shape db data.applicant merchantId newUserId cid db1 heq
          split
          · exact ⟨fun _ => ⟨_, rfl⟩, fun e _ => ⟨hloans, hdocs, haudit⟩,
              fun res db' h => by simp at h⟩
          · next hinv =>
            have hall : ∀ d ∈ data.documents,
                docVerified env merchantId (plannedCustomerId data.applicant newUserId) d = true := by
              intro d hd
              by_contra hc
              apply hinv
              have hdf : docVerified env merchantId cid d = false := by
                rw [hcid]
                exact Bool.eq_false_iff.mpr hc
              have : d ∈ data.documents.filter
                  (fun d => !(docVerified env merchantId cid d)) :=
                List.mem_filter.mpr ⟨hd, by simp [hdf]⟩
              intro hnil
              rw [hnil] at this
              simp at this
            split
            · exact ⟨fun ⟨d, hd, hdf⟩ => absurd (hall d hd) (by simp [hdf]),
                fun e _ => ⟨hloans, hdocs, haudit⟩, fun res db' h => by simp at h⟩
            · exact ⟨fun ⟨d, hd, hdf⟩ => absurd (hall d hd) (by simp [hdf]),
                fun e he => by simp at he,
                fun res db' h => by
                  obtain ⟨h1, h2⟩ := Prod.mk.injEq .. ▸ h
                  obtain h1 := Except.ok.inj h1
                  subst h2
                  refine ⟨by rw [← h1], by rw [← h1], ?_, ?_, ?_⟩ <;>
                    simp [← h1, hloans, hdocs, haudit]⟩

/-- The merchant link a freshly created customer receives: present exactly
when the submitting merchant has a merchant profile. -/
def newCustomerLink (db : DB) (merchantId : String) : Option String :=
  match findUser db merchantId with
  | some m => if m.hasMerchantProfile then some merchantId else none
  | none => none

/-- C9: with a `new` applicant, once the pre-verification gates pass,
the new CUSTOMER account (with its merchant link) is persisted before
document verification runs and outside the loan transaction: when some
document then fails the existence/ownership check the call errors, yet
the post-state still contains the new user row appended, while the Loan,
Document and AuditLog tables are untouched. -/
theorem applyForLoan_new_customer_persists (db : DB) (env : ExtEnv)
    (data : ApplyData) (merchantId newUserId : String) (newLoanId : Nat)
    (auditOk : Bool) (nm em ph ad : Option String) (lt : LoanTypeRow)
    (happ : data.applicant = .newCustomer nm em ph ad)
    (hlt : db.loanTypes.find? (fun t => t.id = data.loanTypeId) = some lt)
    (hschema : ∀ s, lt.schema = some s → env.schemaValid s data.metadata = true)
    (hreq : lt.requiredDocuments.filter
      (fun req => some req ∉ data.documents.map (fun d => jsOrS d.docTag d.fileType)) = [])
    (hnm : jsTruthy nm = true) (hem : jsTruthy em = true) (hph : jsTruthy ph = true)
    (hfresh : ∀ u ∈ db.users, u.email ≠ normalizedEmailOf em)
    (hfail : ∃ d ∈ data.documents,
      docVerified env merchantId (some newUserId) d = false) :
    (∃ e, (applyForLoan db env data merchantId newUserId newLoanId auditOk).1 = .error e) ∧
    (applyForLoan db env data merchantId newUserId newLoanId auditOk).2.users =
      db.users ++ [{ id := newUserId, role := .CUSTOMER,
                     email := normalizedEmailOf em, status := defaultUserStatus,
                     hasMerchantProfile := false,
                     merchantLink := newCustomerLink db merchantId }] ∧
    (applyForLoan db env data merchantId newUserId newLoanId auditOk).2.loans = db.loans ∧
    (applyForLoan db env data merchantId newUserId newLoanId auditOk).2.documents = db.documents ∧
    (applyForLoan db env data merchantId newUserId newLoanId auditOk).2.auditLogs = db.auditLogs := by
  have hany : db.users.any (fun u => u.email = normalizedEmailOf em) = false := by
    rw [List.any_eq_false]
    intro u hu
    simpa using hfresh u hu
  have hres : resolveApplicant db data.applicant merchantId newUserId =
      .ok (some newUserId,
        { db with users := db.users ++
            [{ id := newUserId, role := .CUSTOMER,
               email := normalizedEmailOf em, status := defaultUserStatus,
               hasMerchantProfile := false,
               merchantLink := newCustomerLink db merchantId }] }) := by
    rw [happ]
    simp only [resolveApplicant, hnm, hem, hph, newCustomerLink,
      Bool.not_true, Bool.or_self, Bool.false_or, Bool.or_false, if_false]
    rw [if_neg (by simp), if_neg (by simp [hany])]
  have hcond : (match lt.schema with
      | some s => !(env.schemaValid s data.metadata)
      | none => false) = false := by
    cases hs : lt.schema with
    | none => rfl
    | some s => simp [hschema s hs]
  have hinv : data.documents.filter
      (fun d => !(docVerified env merchantId (some newUserId) d)) ≠ [] := by
    obtain ⟨d, hd, hdf⟩ := hfail
    intro hnil
    have hmem : d ∈ data.documents.filter
        (fun d => !(docVerified env merchantId (some newUserId) d)) :=
      List.mem_filter.mpr ⟨hd, by simp [hdf]⟩
    rw [hnil] at hmem
    simp at hmem
  simp only [applyForLoan, hlt, hcond, hreq, hres, if_false]
  rw [if_neg (by simp), if_pos hinv]
  refine ⟨⟨_, rfl⟩, rfl, rfl, rfl, rfl⟩

theorem isKYCComplete_only_reads_docs (a b : DB) (u : String) (r : Role)
    (hint : Option String) (h : a.kycDocs = b.kycDocs) :
    isKYCComplete a u r hint = isKYCComplete b u r hint := by
  unfold isKYCComplete getUserKYCDocuments
  rw [h]

theorem syncLoansKYCStatus_projections (db : DB) (u : String) :
    (syncLoansKYCStatus db u).users = db.users ∧
    (syncLoansKYCStatus db u).kycDocs = db.kycDocs ∧
    (syncLoansKYCStatus db u).notifications = db.notifications ∧
    (syncLoansKYCStatus db u).auditLogs = db.auditLogs ∧
    (syncLoansKYCStatus db u).kycAuditLogs = db.kycAuditLogs := by
  unfold syncLoansKYCStatus
  cases findUser db u <;> simp

theorem syncLoansKYCStatus_loans_congr (a b : DB) (u : String)
    (hu : a.users = b.users) (hk : a.kycDocs = b.kycDocs)
    (hl : a.loans = b.loans) :
    (syncLoansKYCStatus a u).loans = (syncLoansKYCStatus b u).loans := by
  unfold syncLoansKYCStatus findUser
  rw [hu, hl]
  cases hf : b.users.find? (fun x => x.id = u) with
  | none => simp [hl]
  | some u1 =>
    simp only
    rw [isKYCComplete_only_reads_docs a b u u1.role none hk]

/-- C6 (amended): failures of the genuinely best-effort side channels never
change an operation's outcome — the post-commit notification inserts of
`approveLoan`/`rejectLoan`/`disburseLoan` (result, loans and audit rows
are identical whether they succeed or fail) and the swallowed
`createKYCAuditLog` insert and fire-and-forget e-mail of
`verifyKYCDocument` (result, document rows, loans and user notifications
identical).  But the loan audit-log insert is part of each lifecycle
transaction: its failure makes an otherwise approvable `approveLoan` fail
with an internal error and roll everything back; and `verifyKYCDocument`
awaits its in-app notification insert un-caught, so that insert's failure
fails the operation after the document status change was already
persisted (no enclosing transaction). -/
theorem best_effort_side_channels (db : DB) :
    (∀ loanId bankerId notes rate auditOk,
      (approveLoan db loanId bankerId notes rate auditOk true).1 =
        (approveLoan db loanId bankerId notes rate auditOk false).1 ∧
      (approveLoan db loanId bankerId notes rate auditOk true).2.loans =
        (approveLoan db loanId bankerId notes rate auditOk false).2.loans ∧
      (approveLoan db loanId bankerId notes rate auditOk true).2.auditLogs =
        (approveLoan db loanId bankerId notes rate auditOk false).2.auditLogs) ∧
    (∀ loanId bankerId notes auditOk,
      (rejectLoan db loanId bankerId notes auditOk true).1 =
        (rejectLoan db loanId bankerId notes auditOk false).1 ∧
      (rejectLoan db loanId bankerId notes auditOk true).2.loans =
        (rejectLoan db loanId bankerId notes auditOk false).2.loans ∧
      (rejectLoan db loanId bankerId notes auditOk true).2.auditLogs =
        (rejectLoan db loanId bankerId notes auditOk false).2.auditLogs) ∧
    (∀ loanId bankerId refId notes auditOk,
      (disburseLoan db loanId bankerId refId notes auditOk true).1 =
        (disburseLoan db loanId bankerId refId notes auditOk false).1 ∧
      (disburseLoan db loanId bankerId refId notes auditOk true).2.loans =
        (disburseLoan db loanId bankerId refId notes auditOk false).2.loans ∧
      (disburseLoan db loanId bankerId refId notes auditOk true).2.auditLogs =
        (disburseLoan db loanId bankerId refId notes auditOk false).2.auditLogs) ∧
    (∀ docId st bankerId notes notifOk a1 a2 e1 e2,
      (verifyKYCDocument db docId st bankerId notes a1 notifOk e1).1 =
        (verifyKYCDocument db docId st bankerId notes a2 notifOk e2).1 ∧
      (verifyKYCDocument db docId st bankerId notes a1 notifOk e1).2.kycDocs =
        (verifyKYCDocument db docId st bankerId notes a2 notifOk e2).2.kycDocs ∧
      (verifyKYCDocument db docId st bankerId notes a1 notifOk e1).2.loans =
        (verifyKYCDocument db docId st bankerId notes a2 notifOk e2).2.loans ∧
      (verifyKYCDocument db docId st bankerId notes a1 notifOk e1).2.notifications =
        (verifyKYCDocument db docId st bankerId notes a2 notifOk e2).2.notifications) ∧
    (∀ loanId bankerId notes notifyOk loan (r : Int),
      db.loans.find? (fun l => l.id = loanId) = some loan →
      loan.status = LoanStatus.UNDER_REVIEW → loan.bankerId = some bankerId →
      0 < r → (approveReadiness db loan).complete = true →
        approveLoan db loanId bankerId notes (some r) false notifyOk =
          (.error .internalError, db)) ∧
    (∀ docId bankerId notes aOk eOk doc,
      db.kycDocs.find? (fun d => d.id = docId) = some doc →
        (verifyKYCDocument db docId "VERIFIED" bankerId notes aOk false eOk).1 =
          .error .internalError ∧
        (verifyKYCDocument db docId "VERIFIED" bankerId notes aOk false eOk).2.kycDocs =
          db.kycDocs.map (fun d => if d.id = docId then
            { doc with status := .VERIFIED, verifiedBy := some bankerId } else d)) := by
  refine ⟨?_, ?_, ?_, ?_, ?_, ?_⟩
  · intro loanId bankerId notes rate auditOk
    cases hf : db.loans.find? (fun l => l.id = loanId) with
    | none => simp [approveLoan, hf]
    | some loan =>
      simp only [approveLoan, hf]
      repeat' split
      all_goals simp_all
  · intro loanId bankerId notes auditOk
    cases hf : db.loans.find? (fun l => l.id = loanId) with
    | none => simp [rejectLoan, hf]
    | some loan =>
      simp only [rejectLoan, hf]
      repeat' split
      all_goals simp_all
  · intro loanId bankerId refId notes auditOk
    cases hf : db.loans.find? (fun l => l.id = loanId) with
    | none => simp [disburseLoan, hf]
    | some loan =>
      simp only [disburseLoan, hf]
      repeat' split
      all_goals simp_all
  · intro docId st bankerId notes notifOk a1 a2 e1 e2
    by_cases hv : st ∉ ["VERIFIED", "REJECTED"]
    · simp [verifyKYCDocument, hv]
    · simp only [verifyKYCDocument, if_neg hv]
      cases hf : db.kycDocs.find? (fun d => d.id = docId) with
      | none => simp
      | some doc =>
        simp only
        cases notifOk with
        | false =>
          refine ⟨rfl, ?_, ?_, ?_⟩ <;> (cases a1 <;> cases a2 <;> simp)
        | true =>
          refine ⟨?_, ?_, ?_, ?_⟩
          · cases a1 <;> cases a2 <;> rfl
          · cases a1 <;> cases a2 <;>
              simp [(syncLoansKYCStatus_projections _ _).2.1]
          · cases a1 <;> cases a2 <;>
              exact syncLoansKYCStatus_loans_congr _ _ _ rfl rfl rfl
          · cases a1 <;> cases a2 <;>
              simp [(syncLoansKYCStatus_projections _ _).2.2.1]
  · intro loanId bankerId notes notifyOk loan r hf hst hb hr hc
    have hrle : ¬ (r ≤ 0) := by omega
    simp [approveLoan, hf, hst, hb, hrle, hc]
  · intro docId bankerId notes aOk eOk doc hf
    simp only [verifyKYCDocument, hf]
    cases aOk <;> simp

/-! Concrete store and environment used by witnesses and counterexamples. -/

def envW : ExtEnv where
  resourceExists := fun _ => true
  schemaValid := fun _ _ => true
  cloudName := "cloud"
  kycFolder := "kyc"
  maxFileSize := 100
  allowedTypes := ["image/png"]

def envF : ExtEnv where
  resourceExists := fun _ => false
  schemaValid := fun _ _ => true
  cloudName := "cloud"
  kycFolder := "kyc"
  maxFileSize := 100
  allowedTypes := ["image/png"]

def uM : UserRow :=
  { id := "m1", role := .MERCHANT, email := "m@x.com", status := "ACTIVE",
    hasMerchantProfile := true }

def uC : UserRow :=
  { id := "c1", role := .CUSTOMER, email := "c@x.com", status := "ACTIVE" }

def uB : UserRow :=
  { id := "b1", role := .BANKER, email := "b@x.com", status := "ACTIVE" }

def uA : UserRow :=
  { id := "a1", role := .ADMIN, email := "a@x.com", status := "ACTIVE" }

def lt1 : LoanTypeRow :=
  { id := 1, name := "Personal", code := some "PERSONAL", schema := none,
    requiredDocuments := ["ID_PROOF"] }

def k1 : KYCDocRow :=
  { id := "k1", userId := "c1", docType := .ID_PROOF, status := .VERIFIED, url := none }

def k2 : KYCDocRow :=
  { id := "k2", userId := "c1", docType := .ADDRESS_PROOF, status := .VERIFIED, url := none }

def k3 : KYCDocRow :=
  { id := "k3", userId := "c1", docType := .PAN_CARD, status := .VERIFIED, url := none }

def loanUR : LoanRow :=
  { id := 1, loanTypeId := 1, merchantId := "m1", applicantId := "c1",
    bankerId := some "b1", amount := 1000, tenorMonths := 12,
    metadata := { fields := [] }, status := .UNDER_REVIEW, kycStatus := .PENDING }

def loanRJ : LoanRow :=
  { id := 2, loanTypeId := 1, merchantId := "m1", applicantId := "c1",
    bankerId := some "b1", amount := 500, tenorMonths := 6,
    metadata := { fields := [] }, status := .REJECTED, kycStatus := .PENDING }

def loanSub : LoanRow :=
  { id := 3, loanTypeId := 1, merchantId := "m1", applicantId := "c1",
    amount := 700, tenorMonths := 9, metadata := { fields := [] },
    status := .SUBMITTED, kycStatus := .PENDING }

def loanLM : LoanRow :=
  { id := 4, loanTypeId := 1, merchantId := "m1", applicantId := "m1",
    bankerId := some "b1", amount := 900, tenorMonths := 9,
    metadata := { fields := [] }, status := .UNDER_REVIEW, kycStatus := .PENDING }

def dbW : DB where
  users := [uM, uC, uB, uA]
  loanTypes := [lt1]
  loans := [loanUR, loanRJ, loanSub, loanLM]
  documents := []
  kycDocs := [k1, k2, k3]
  auditLogs := []
  kycAuditLogs := []
  notifications := []

def adocW : ApplyDoc :=
  { public_id := some "m1/doc/a", docTag := some "ID_PROOF",
    filename := some "f.png", bytes := 5 }

def dataW : ApplyData :=
  { applicant := .existing (some "c1"), loanTypeId := 1, amount := 1000,
    tenorMonths := 12, documents := [adocW] }

def dataNew : ApplyData :=
  { applicant := .newCustomer (some "Nu") (some " New@X.com ") (some "99") none,
    loanTypeId := 1, amount := 10, tenorMonths := 3, documents := [adocW] }

/-- C1 witness: a loan under review whose applicant (the merchant, with no
verified documents) is KYC-incomplete is refused with the distinguished
KYC-incomplete error and the store is unchanged. -/
theorem approveLoan_kyc_gate_witness :
    (dbW.loans.find? (fun l => l.id = 4) = some loanLM) ∧
    approveLoan dbW 4 "b1" none (some 12) true true =
      (.error (.kycIncomplete (approveReadiness dbW loanLM).missingTypes
        (approveReadiness dbW loanLM).percentComplete), dbW) :=
  ⟨by decide,
   (approveLoan_kyc_gate dbW 4 "b1" none (some 12) true true loanLM (by decide)).2
     (by decide) (by decide) (by decide) 12 rfl (by decide)⟩

/-- C2 witness: disbursing a SUBMITTED loan yields the invalid-state error
and leaves the store unchanged. -/
theorem lifecycle_state_machine_witness :
    (dbW.loans.find? (fun l => l.id = 3) = some loanSub) ∧
    disburseLoan dbW 3 "b1" (some "r") none true true = (.error .invalidState, dbW) :=
  ⟨by decide,
   (lifecycle_state_machine dbW 3 loanSub (by decide)).2.2.2.1 "b1" (some "r")
     none true true (by decide)⟩

/-- C2 counterexample: `cancelLoan` called by a stranger on a REJECTED
(terminal) loan fails with Forbidden, not with the invalid-state-transition
error the claim requires for every operation on a terminal loan — the
source checks ownership before status. -/
theorem cancel_terminal_nonowner_counterexample :
    cancelLoan dbW 2 "zz" none true = (.error .forbidden, dbW) ∧
    LoanErr.forbidden ≠ LoanErr.invalidState :=
  ⟨by decide, by decide⟩

/-- C3 witness: completing `k1`'s upload with a spoofed locator succeeds and
persists the URL built from the server-reconstructed locator. -/
theorem completeUpload_ignores_client_locator_witness :
    (dbW.kycDocs.find? (fun d => d.id = "k1") = some k1) ∧
    ∃ res db', completeUpload dbW envW "k1" "spoofed/locator" 5 "image/png" =
        (.ok res, db') ∧
      res.url = some (storageUrl envW (expectedPublicIdOf k1)) := by
  have h := (completeUpload_ignores_client_locator dbW envW "k1"
    "spoofed/locator" "x" 5 "image/png").2 k1 (by decide)
  exact ⟨by decide, _, _, rfl, h _ _ rfl⟩

/-- C4 witness: an application whose only document fails the backing-store
existence check errors out. -/
theorem applyForLoan_atomicity_witness :
    (∃ d ∈ dataW.documents,
      docVerified envF "m1" (plannedCustomerId dataW.applicant "u9") d = false) ∧
    ∃ e, (applyForLoan dbW envF dataW "m1" "u9" 7 true).1 = .error e :=
  ⟨by decide, (applyForLoan_atomicity dbW envF dataW "m1" "u9" 7 true).1 (by decide)⟩

/-- C6 counterexample: with every business precondition satisfied (loan
under review, assigned banker, valid rate, KYC complete), a failing
audit-log insert makes `approveLoan` fail and roll back — contradicting
the claim that audit-write failures never fail the enclosing operation. -/
theorem audit_failure_fails_approval_counterexample :
    approveLoan dbW 1 "b1" none (some 12) false true = (.error .internalError, dbW) ∧
    (approveReadiness dbW loanUR).complete = true :=
  ⟨by decide, by decide⟩

/-- C6 witness: a failing in-app notification insert makes
`verifyKYCDocument` fail after the document row was already updated. -/
theorem best_effort_side_channels_witness :
    (dbW.kycDocs.find? (fun d => d.id = "k1") = some k1) ∧
    ((verifyKYCDocument dbW "k1" "VERIFIED" "b1" "" true false true).1 =
      .error .internalError ∧
     (verifyKYCDocument dbW "k1" "VERIFIED" "b1" "" true false true).2.kycDocs =
       dbW.kycDocs.map (fun d =>
         if d.id = "k1" then { k1 with status := .VERIFIED, verifiedBy := some "b1" }
         else d)) :=
  ⟨by decide,
   (best_effort_side_channels dbW).2.2.2.2.2 "k1" "b1" "" true true k1 (by decide)⟩

/-- C7 witness: a banker other than the assigned one is refused with
Forbidden and the store is unchanged. -/
theorem assigned_banker_only_witness :
    (dbW.loans.find? (fun l => l.id = 1) = some loanUR) ∧
    approveLoan dbW 1 "b2" none (some 12) true true = (.error .forbidden, dbW) :=
  ⟨by decide,
   (assigned_banker_only dbW 1 "b2" loanUR (by decide)).1 none (some 12) true true
     (by decide) (by decide)⟩

/-- C8: the admin status-change path applied to the admin's own account
SUCCEEDS and changes the stored status — `adminUserService.updateUserStatus`
has no self-check (its two-parameter signature silently drops the actor id
the controller passes), so the claimed Forbidden never happens. -/
theorem admin_self_status_change_succeeds :
    (adminUpdateUserStatus dbW "a1" "a1" "SUSPENDED").1 =
      .ok { id := "a1", role := .ADMIN, email := "a@x.com", status := "SUSPENDED" } ∧
    ∃ u ∈ (adminUpdateUserStatus dbW "a1" "a1" "SUSPENDED").2.users,
      u.id = "a1" ∧ u.status = "SUSPENDED" := by
  decide

/-- C9 witness: a `new`-applicant application whose document fails
verification errors out, yet the freshly created customer row stays
persisted while no loan rows were written. -/
theorem applyForLoan_new_customer_persists_witness :
    (∃ d ∈ dataNew.documents, docVerified envF "m1" (some "u9") d = false) ∧
    (∃ e, (applyForLoan dbW envF dataNew "m1" "u9" 9 true).1 = .error e) ∧
    (applyForLoan dbW envF dataNew "m1" "u9" 9 true).2.users =
      dbW.users ++ [{ id := "u9", role := .CUSTOMER,
                      email := normalizedEmailOf (some " New@X.com "),
                      status := defaultUserStatus, hasMerchantProfile := false,
                      merchantLink := newCustomerLink dbW "m1" }] := by
  have h := applyForLoan_new_customer_persists dbW envF dataNew "m1" "u9" 9 true
    (some "Nu") (some " New@X.com ") (some "99") none lt1 rfl (by decide)
    (by intro s hs; simp [lt1] at hs) (by decide) (by decide) (by decide)
    (by decide) (by decide) (by decide)
  exact ⟨by decide, h.1, h.2.1⟩

/-- C10 witness: for a fresh document id "k9" distinct from the issued
uuid-timestamp suffix, completing with the issued locator persists a URL
different from the upload target. -/
theorem generateUploadUrl_locator_mismatch_witness :
    (("uu" ++ "-" ++ "11" : String) ≠ "k9") ∧
    ((generateUploadUrl dbEmpty envW "c1" .PAN_CARD "uu" "11" "k9").1.publicId ≠
      locatorBase "c1" .PAN_CARD ++ "k9") ∧
    ∃ res db2,
      completeUpload (generateUploadUrl dbEmpty envW "c1" .PAN_CARD "uu" "11" "k9").2
          envW "k9" (generateUploadUrl dbEmpty envW "c1" .PAN_CARD "uu" "11" "k9").1.publicId
          5 "image/png" = (.ok res, db2) ∧
      res.url = some (storageUrl envW (locatorBase "c1" .PAN_CARD ++ "k9")) ∧
      res.url ≠
        some (generateUploadUrl dbEmpty envW "c1" .PAN_CARD "uu" "11" "k9").1.expectedFinalUrl := by
  have h := generateUploadUrl_locator_mismatch dbEmpty envW "c1" .PAN_CARD
    "uu" "11" "k9" 5 "image/png" (by decide) (by decide) (by decide) (by decide)
  exact ⟨by decide, h.1, h.2⟩
